import Mathlib

/-!
Shallow embedding of the resultant.js library in Lean 4: the dynamic value
domain used for thrown and rejected failure payloads, the error normalizer,
the Result and Option wrapper classes from src/src/rustify/index.ts, the
builders, the goify tuple bridge, and the pattern-matching dispatcher,
together with theorems settling the specification claims.
-/

namespace Resultant

mutual
/-- Model of the dynamic JavaScript values that can appear as thrown or
rejected failure payloads: strings, numbers (integral model), booleans,
null, bigints, native Error instances (identified by their message) and
plain objects with named fields.  Values on which the JSON.stringify
builtin returns undefined instead of a string or a throw (undefined itself,
functions, symbols) are outside the modelled domain. -/
inductive JSValue : Type where
  | str (s : String)
  | num (n : Int)
  | boolV (b : Bool)
  | nullV
  | bigintV (n : Int)
  | errObj (msg : String)
  | obj (fields : JSFields)
deriving DecidableEq

/-- Field list of a plain JavaScript object. -/
inductive JSFields : Type where
  | nil
  | cons (key : String) (v : JSValue) (rest : JSFields)
deriving DecidableEq
end

/-- Property lookup on a plain object's field list, first match wins. -/
def JSFields.lookup : JSFields → String → Option JSValue
  | .nil, _ => none
  | .cons k v rest, key => if k = key then some v else rest.lookup key

/-- The guard from convertErrorToString for its third branch, returning the
message when it holds: the value is an object, is not null, has a message
property, and that property is a string.  Null fails the guard because of
the explicit null test, and native Error instances are intercepted by the
earlier instanceof branch, so only plain objects are relevant here. -/
def objStringMessage : JSValue → Option String
  | .obj fs =>
      match fs.lookup "message" with
      | some (.str m) => some m
      | _ => none
  | _ => none

/-- Model of the String() conversion on the modelled value domain: a string
converts to itself, numbers and bigints print in decimal, booleans print
true or false, null prints "null", an Error instance prints "Error: "
followed by its message, and a plain object prints "[object Object]". -/
def jsToString : JSValue → String
  | .str s => s
  | .num n => toString n
  | .boolV b => cond b "true" "false"
  | .nullV => "null"
  | .bigintV n => toString n
  | .errObj m => "Error: " ++ m
  | .obj _ => "[object Object]"

mutual
/-- Model of the JSON.stringify builtin on the modelled value domain,
returning none when serialization throws (a bigint value, directly or
nested).  A native Error instance serializes to an empty object because its
properties are not enumerable.  String escaping is modelled as plain
quoting; no claim depends on the escaped spelling. -/
def jsonStringify : JSValue → Option String
  | .str s => some ("\"" ++ s ++ "\"")
  | .num n => some (toString n)
  | .boolV b => some (cond b "true" "false")
  | .nullV => some "null"
  | .bigintV _ => none
  | .errObj _ => some "\x7b\x7d"
  | .obj fs =>
      match jsonStringifyFields fs with
      | some body => some ("\x7b" ++ body ++ "\x7d")
      | none => none

/-- Serialization of an object's fields: key and value entries joined by
commas, failing as soon as one field value fails to serialize. -/
def jsonStringifyFields : JSFields → Option String
  | .nil => some ""
  | .cons k v rest =>
      match jsonStringify v, jsonStringifyFields rest with
      | some sv, some srest =>
          some ("\"" ++ k ++ "\":" ++ sv ++ (if srest = "" then "" else ",") ++ srest)
      | _, _ => none
end

/-- Embedding of convertErrorToString from src/src/rustify/index.ts lines
51 to 71.  The branches are tried in the source's order: a string input is
returned unchanged, an instanceof Error yields its message, a non-null
object with a string message property yields that property, and otherwise
JSON.stringify is attempted inside try/catch with String() conversion as
the catch fallback.  The function is total: no exception escapes it. -/
def convertErrorToString (err : JSValue) : String :=
  match err with
  | .str s => s
  | .errObj m => m
  | other =>
      match objStringMessage other with
      | some m => m
      | none =>
          match jsonStringify other with
          | some s => s
          | none => jsToString other

/-- Test from the spec's policy step 1: the value is a string. -/
def isStringValue : JSValue → Bool
  | .str _ => true
  | _ => false

/-- Test from the spec's policy step 2: the value is a native Error. -/
def isNativeError : JSValue → Bool
  | .errObj _ => true
  | _ => false

/-- Content of a string value, meaningful when isStringValue holds. -/
def stringContent : JSValue → String
  | .str s => s
  | _ => ""

/-- Message of a native Error, meaningful when isNativeError holds. -/
def nativeErrorMessage : JSValue → String
  | .errObj m => m
  | _ => ""

/-- Error Normalizer written from the words of spec section 4.1 as a
first-match-wins chain: string input unchanged, native Error message,
string-typed message property of a plain object, JSON serialization, and
the generic String() conversion when serialization throws.  Stated
independently of the code embedding so the two can be compared. -/
def errorNormalizerSpec (v : JSValue) : String :=
  if isStringValue v then stringContent v
  else if isNativeError v then nativeErrorMessage v
  else
    match objStringMessage v with
    | some m => m
    | none =>
        match jsonStringify v with
        | some s => s
        | none => jsToString v

/-- The tagged union Outcome with mutually exclusive slots: OutcomeOk
holding a value or OutcomeErr holding an error. -/
inductive Outcome (T E : Type) : Type where
  | ok (value : T)
  | err (error : E)
deriving DecidableEq

/-- Embedding of the Result class: it owns exactly one Outcome, fixed at
construction. -/
structure Result (T E : Type) : Type where
  outcome : Outcome T E
deriving DecidableEq

/-- Embedding of the Ok factory: a new Result around a value slot. -/
def Ok {T E : Type} (value : T) : Result T E := ⟨.ok value⟩

/-- Embedding of the Err factory: a new Result around an error slot. -/
def Err {T E : Type} (error : E) : Result T E := ⟨.err error⟩

/-- Model of a native Error value constructed by the library itself,
identified by its message. -/
structure JsError : Type where
  message : String
deriving DecidableEq

/-- Model of the implicit String() conversion a template literal applies to
an interpolated failure payload, as used in the unwrap throw message. -/
class JsStringify (E : Type) : Type where
  jsStr : E → String

instance : JsStringify String := ⟨fun s => s⟩

instance : JsStringify JsError := ⟨fun e => "Error: " ++ e.message⟩

instance : JsStringify JSValue := ⟨jsToString⟩

/-- Embedding of Result.isOk.  On an instance built by the library the
outcome carries no ok flag, so the source guard reduces to the slot
presence test for the value slot. -/
def Result.isOk {T E : Type} : Result T E → Bool
  | ⟨.ok _⟩ => true
  | ⟨.err _⟩ => false

/-- Embedding of Result.isErr, the slot presence test for the error slot. -/
def Result.isErr {T E : Type} : Result T E → Bool
  | ⟨.ok _⟩ => false
  | ⟨.err _⟩ => true

/-- Embedding of Result.unwrap: the value slot is returned, and on a failure
an Error is thrown whose message interpolates the stringified failure
payload.  The throw is modelled by the Except error case. -/
def Result.unwrap {T E : Type} [JsStringify E] : Result T E → Except JsError T
  | ⟨.ok v⟩ => .ok v
  | ⟨.err e⟩ =>
      .error ⟨"Attempted to unwrap an 'Err' result: " ++ JsStringify.jsStr e⟩

/-- Embedding of Result.unwrapErr: mirror image of unwrap. -/
def Result.unwrapErr {T E : Type} : Result T E → Except JsError E
  | ⟨.ok _⟩ => .error ⟨"Attempted to unwrap `Err` from an `Ok` result."⟩
  | ⟨.err e⟩ => .ok e

/-- Embedding of the synchronous branch of Result.map: the value slot is
transformed into a fresh Ok, and on a failure a new Result is rebuilt
around the original error slot. -/
def Result.map {T E U : Type} (r : Result T E) (transform : T → U) : Result U E :=
  match r with
  | ⟨.ok v⟩ => Ok (transform v)
  | ⟨.err e⟩ => ⟨.err e⟩

/-- Embedding of the synchronous branch of Result.andThen: the transform is
applied to the value slot and must itself return a Result, while a failure
short-circuits into Err of the original error. -/
def Result.andThen {T E U : Type} (r : Result T E) (transform : T → Result U E) :
    Result U E :=
  match r with
  | ⟨.ok v⟩ => transform v
  | ⟨.err e⟩ => Err e

/-- Embedding of the wire form SerializableOutcome: a value slot with the ok
flag true, or a string error slot with the ok flag false.  The redundant
boolean discriminant is determined by the populated slot, as in every wire
value the library itself produces. -/
inductive SerializableOutcome (T : Type) : Type where
  | mkOk (value : T)
  | mkErr (error : String)
deriving DecidableEq

/-- The redundant boolean ok discriminant of the wire form. -/
def SerializableOutcome.ok {T : Type} : SerializableOutcome T → Bool
  | .mkOk _ => true
  | .mkErr _ => false

/-- The source guard isOk evaluated on a wire-form outcome: the value slot
is present, or the ok flag is true. -/
def SerializableOutcome.isOkS {T : Type} (so : SerializableOutcome T) : Bool :=
  (match so with | .mkOk _ => true | .mkErr _ => false) || so.ok

/-- Embedding of the synchronous branch of the static Result.From.  The
source tests isOk(input), which on the modelled wire form is true exactly
on a value slot, and rebuilds either a value Result or a failure Result
around new Error(input.error). -/
def Result.From {T : Type} : SerializableOutcome T → Result T JsError
  | .mkOk v => ⟨.ok v⟩
  | .mkErr e => ⟨.err ⟨e⟩⟩

/-- Eventual settlement of a pending value, under the single-threaded
cooperative model: resolution with a value or rejection with a reason. -/
inductive Settled (T E : Type) : Type where
  | resolved (v : T)
  | rejected (e : E)
deriving DecidableEq

/-- Observable behaviour of invoking a dual-mode operation: a synchronous
return, a synchronous throw, or a returned pending value identified with
its eventual settlement. -/
inductive OpResult (T E : Type) : Type where
  | sync (v : T)
  | syncThrow (e : E)
  | pending (s : Settled T E)
deriving DecidableEq

/-- Return shape of a dual-mode builder: an immediately available wrapper,
or a pending wrapper identified with the wrapper it settles to. -/
inductive BuildOutput (A : Type) : Type where
  | immediate (a : A)
  | pendingOut (a : A)
deriving DecidableEq

/-- Embedding of buildResult from src/src/rustify/index.ts lines 140 to
151: a synchronous return becomes an immediate Ok, a synchronous throw an
immediate Err around the raw thrown value, and a returned pending value a
pending wrapper settling through then into Ok and through catch into Err of
the raw rejection reason.  No normalization is applied on either failure
path. -/
def buildResult {T E : Type} : OpResult T E → BuildOutput (Result T E)
  | .sync v => .immediate (Ok v)
  | .syncThrow e => .immediate (Err e)
  | .pending (.resolved v) => .pendingOut (Ok v)
  | .pending (.rejected e) => .pendingOut (Err e)

/-- Embedding of buildSerializableOutcome from lines 99 to 110: thrown and
rejected payloads are arbitrary dynamic values and are normalized with
convertErrorToString before being stored in the error slot of the wire
form. -/
def buildSerializableOutcome {T : Type} :
    OpResult T JSValue → BuildOutput (SerializableOutcome T)
  | .sync v => .immediate (.mkOk v)
  | .syncThrow e => .immediate (.mkErr (convertErrorToString e))
  | .pending (.resolved v) => .pendingOut (.mkOk v)
  | .pending (.rejected e) => .pendingOut (.mkErr (convertErrorToString e))

/-- GoifyResult, the two-slot tuple: a value paired with null, or null
paired with an error. -/
inductive GoifyResult (T E : Type) : Type where
  | okT (v : T)
  | errT (e : E)
deriving DecidableEq

/-- Embedding of goify from src/src/goify/index.ts: the dual-mode tuple
builder, whose error slot takes the raw caught value. -/
def goify {T E : Type} : OpResult T E → BuildOutput (GoifyResult T E)
  | .sync v => .immediate (.okT v)
  | .syncThrow e => .immediate (.errT e)
  | .pending (.resolved v) => .pendingOut (.okT v)
  | .pending (.rejected e) => .pendingOut (.errT e)

/-- Observable behaviour of a synchronous operation: it returns or throws. -/
inductive SyncOp (T E : Type) : Type where
  | ret (v : T)
  | thr (e : E)
deriving DecidableEq

/-- Embedding of goifySync from the legacy goify module: try/catch around
the synchronous operation, the caught value passed through raw. -/
def goifySync {T E : Type} : SyncOp T E → GoifyResult T E
  | .ret v => .okT v
  | .thr e => .errT e

/-- The nullable domain accepted by the Option constructor and produced by
a map transform: a proper value, null, or undefined. -/
inductive Nullable (T : Type) : Type where
  | val (v : T)
  | nullV
  | undefV
deriving DecidableEq

/-- Embedding of the Option class of src/src/rustify/index.ts: the private
slot holds a value or is unset.  Named OptionR so the Lean builtin Option
stays usable for the slot itself. -/
structure OptionR (T : Type) : Type where
  slot : Option T
deriving DecidableEq

/-- Embedding of the Option constructor: a null or undefined argument
leaves the slot unset (the collapsing behaviour), any proper value is
stored. -/
def OptionR.make {T : Type} : Nullable T → OptionR T
  | .val v => ⟨some v⟩
  | .nullV => ⟨none⟩
  | .undefV => ⟨none⟩

/-- Embedding of the Some factory: the constructor applied to a value. -/
def Some {T : Type} (value : T) : OptionR T := OptionR.make (.val value)

/-- Embedding of the None factory: the constructor applied to undefined. -/
def None {T : Type} : OptionR T := OptionR.make .undefV

/-- Embedding of Option.isSome: the slot is set. -/
def OptionR.isSome {T : Type} (o : OptionR T) : Bool := o.slot.isSome

/-- Embedding of Option.isNone: the slot is unset. -/
def OptionR.isNone {T : Type} (o : OptionR T) : Bool := o.slot.isNone

/-- Embedding of the synchronous branch of Option.map: the transform's
result may be any nullable value and the mapped Option is rebuilt through
the collapsing constructor, while an unset slot maps to None. -/
def OptionR.map {T U : Type} (o : OptionR T) (func : T → Nullable U) : OptionR U :=
  match o.slot with
  | some v => OptionR.make (func v)
  | none => None

/-- Embedding of Option.take: a new Option is built by the constructor from
the current slot, then the receiver's slot is cleared.  The in-place
mutation is modelled by explicit state passing: the first component is the
returned Option and the second the receiver's state afterwards.  take is
the only operation of the class that writes to the receiver; every other
operation is modelled as a pure function of the receiver. -/
def OptionR.take {T : Type} (o : OptionR T) : OptionR T × OptionR T :=
  (OptionR.make (match o.slot with | some v => .val v | none => .undefV), ⟨none⟩)

/-- A handler object passed to the dispatcher: each of the four recognized
keys may be present or absent, matching the source's key-presence tests. -/
structure Matcher (T E R : Type) : Type where
  someH : Option (T → R)
  noneH : Option (Unit → R)
  okH : Option (T → R)
  errH : Option (E → R)

/-- A runtime input to the dispatcher: an Option instance, a Result
instance, or a value that is an instance of neither class. -/
inductive MatchInput (T E : Type) : Type where
  | opt (o : OptionR T)
  | res (r : Result T E)
  | other

/-- The MatchError thrown when dispatch fails, with the source's message. -/
def matchErrorValue : JsError :=
  ⟨"MatchError: Input value type does not align with the provided handler, or a required handler function (e.g., Some, None, Ok, Err) is missing."⟩

/-- Embedding of the match dispatcher from lines 1055 to 1074, named
jsMatch because match is a Lean keyword.  An Option input with a complete
Some/None handler pair dispatches on slot presence through the guarded
isSome/unwrap pair of the source, a Result input with a complete Ok/Err
pair dispatches on the outcome slot through isOk/unwrap/unwrapErr, and any
other combination reaches the MatchError throw: an Option instance never
passes the Result instanceof test and vice versa, so a missing handler pair
falls through both branches. -/
def jsMatch {T E R : Type} : MatchInput T E → Matcher T E R → Except JsError R
  | .opt o, m =>
      match m.someH, m.noneH with
      | some someF, some noneF =>
          match o.slot with
          | some v => .ok (someF v)
          | none => .ok (noneF ())
      | _, _ => .error matchErrorValue
  | .res r, m =>
      match m.okH, m.errH with
      | some okF, some errF =>
          match r.outcome with
          | .ok v => .ok (okF v)
          | .err e => .ok (errF e)
      | _, _ => .error matchErrorValue
  | .other, _ => .error matchErrorValue

/-- C2: the Error Normalizer is total over the modelled dynamic value domain
and never throws (the JSON serialization attempt is guarded by try/catch
with the String() fallback), and it implements exactly the first-match-wins
policy of spec section 4.1, stated here as the independently written
errorNormalizerSpec. -/
theorem c2_convertErrorToString_policy :
    ∀ v : JSValue, convertErrorToString v = errorNormalizerSpec v := by
  intro v
  cases v <;> rfl

/-- C1 counterexample: the claim prescribes that buildResult normalizes a
synchronously thrown value through the section 4.1 normalizer before
storing it in the failure slot.  At the concrete operation that
synchronously throws new Error("boom"), buildResult returns an immediate
failure wrapping the raw Error value, which differs from the failure slot
the claim prescribes, the normalization of that Error (the string "boom"). -/
theorem c1_buildResult_raw :
    buildResult (T := Nat) (.syncThrow (JSValue.errObj "boom"))
      = .immediate (Err (JSValue.errObj "boom")) ∧
    buildResult (T := Nat) (.syncThrow (JSValue.errObj "boom"))
      ≠ .immediate (Err (JSValue.str (convertErrorToString (JSValue.errObj "boom")))) := by
  refine ⟨rfl, ?_⟩
  intro h
  simp [buildResult, Err, convertErrorToString] at h

/-- C1 amended: both builders return an immediate wrapper on a synchronous
return or throw and a pending wrapper settling with the operation when it
returns a pending value; buildSerializableOutcome normalizes thrown and
rejected values through the section 4.1 normalizer, while buildResult
wraps the raw thrown value or rejection reason without normalization. -/
theorem c1_builders (T E : Type) (v : T) (e : E) (w : T) (je : JSValue) :
    buildResult (.sync v) = .immediate (Ok (E := E) v) ∧
    buildResult (.syncThrow e) = .immediate (Err (T := T) e) ∧
    buildResult (.pending (.resolved v)) = .pendingOut (Ok (E := E) v) ∧
    buildResult (.pending (.rejected e)) = .pendingOut (Err (T := T) e) ∧
    buildSerializableOutcome (.sync w) = .immediate (.mkOk w) ∧
    buildSerializableOutcome (.syncThrow je)
      = .immediate (.mkErr (T := T) (convertErrorToString je)) ∧
    buildSerializableOutcome (.pending (.resolved w)) = .pendingOut (.mkOk w) ∧
    buildSerializableOutcome (.pending (.rejected je))
      = .pendingOut (.mkErr (T := T) (convertErrorToString je)) :=
  ⟨rfl, rfl, rfl, rfl, rfl, rfl, rfl, rfl⟩

/-- C3: goify and goifySync follow the builder contract with the
GoifyResult tuple: a success yields the value paired with the absent
marker, and a failure (a synchronous throw, or rejection of a returned
pending value) yields the absent marker paired with the failure as captured
at the boundary; in particular a synchronous throw of new Error("x") under
goifySync yields the tuple whose error slot is an Error whose message
equals "x", exactly as in the claim's example. -/
theorem c3_goify_tuple (T E : Type) (v : T) (e : E) :
    goify (.sync v) = .immediate (GoifyResult.okT (E := E) v) ∧
    goify (.syncThrow e) = .immediate (GoifyResult.errT (T := T) e) ∧
    goify (.pending (.resolved v)) = .pendingOut (GoifyResult.okT (E := E) v) ∧
    goify (.pending (.rejected e)) = .pendingOut (GoifyResult.errT (T := T) e) ∧
    goifySync (.ret v) = GoifyResult.okT (E := E) v ∧
    goifySync (.thr e) = GoifyResult.errT (T := T) e ∧
    goifySync (T := Nat) (.thr (JSValue.errObj "x")) = .errT (JSValue.errObj "x") ∧
    nativeErrorMessage (JSValue.errObj "x") = "x" :=
  ⟨rfl, rfl, rfl, rfl, rfl, rfl, rfl, rfl⟩

/-- C4: a Result constructed as a success around v unwraps to v and reports
isOk, and every Result constructed as a failure makes unwrap throw an Error
carrying the stringified failure payload instead of returning. -/
theorem c4_unwrap (T E : Type) [JsStringify E] (v : T) (e : E) :
    (Ok v : Result T E).unwrap = Except.ok v ∧
    (Ok v : Result T E).isOk = true ∧
    (Err e : Result T E).unwrap
      = Except.error ⟨"Attempted to unwrap an 'Err' result: " ++ JsStringify.jsStr e⟩ :=
  ⟨rfl, rfl, rfl⟩

/-- C5: round-trip through the wire form.  The success wire form for v
carries the ok flag true and converts back through From to a Result that
unwraps to v, and the failure wire form with error "x" and ok flag false
converts to a failure Result whose payload is a structured Error whose
message equals "x". -/
theorem c5_from_roundtrip (T : Type) (v : T) :
    (SerializableOutcome.mkOk v).ok = true ∧
    (Result.From (SerializableOutcome.mkOk v)).unwrap = Except.ok v ∧
    (SerializableOutcome.mkErr (T := T) "x").ok = false ∧
    Result.From (SerializableOutcome.mkErr (T := T) "x") = Err (JsError.mk "x") ∧
    (Result.From (SerializableOutcome.mkErr (T := T) "x")).isErr = true ∧
    (JsError.mk "x").message = "x" :=
  ⟨rfl, rfl, rfl, rfl, rfl, rfl⟩

/-- C6: andThen is associative, and a failure passes through both forms
untouched, whatever the chained Result-returning functions are. -/
theorem c6_andThen_assoc (T U V E : Type) (r : Result T E)
    (f : T → Result U E) (g : U → Result V E) (e : E) :
    (r.andThen f).andThen g = r.andThen (fun x => (f x).andThen g) ∧
    (Err e : Result T E).andThen f = Err e ∧
    ((Err e : Result T E).andThen f).andThen g = Err e := by
  refine ⟨?_, rfl, rfl⟩
  rcases r with ⟨o⟩
  cases o <;> rfl

/-- C7: map with the identity transform is a no-op on every Result, and a
failure's error slot passes through map unchanged without the transform
being applied: the pass-through equation holds for every transform. -/
theorem c7_map_identity (T U E : Type) (r : Result T E) (f : T → U) (e : E) :
    r.map (fun x => x) = r ∧
    (Err e : Result T E).map f = Err e := by
  refine ⟨?_, rfl⟩
  rcases r with ⟨o⟩
  cases o <;> rfl

/-- C8: the dispatcher dispatches on the runtime type of the input.  An
Option input with a complete Some/None handler pair returns the Some
handler on the held value or the None handler on absence, with the claim's
concrete examples evaluating to 10 and 0; a Result input with a complete
Ok/Err pair returns the matching handler on the slot payload; and a
MatchError is raised when the input is not a recognized wrapper or the
handler object lacks the pair required for the input's runtime type. -/
theorem c8_match_dispatch (T E R : Type) (v : T) (e : E)
    (someF : T → R) (noneF : Unit → R) (okF : T → R) (errF : E → R)
    (oh : Option (T → R)) (eh : Option (E → R)) (m : Matcher T E R) :
    jsMatch (.opt ⟨some v⟩) ⟨some someF, some noneF, oh, eh⟩ = .ok (someF v) ∧
    jsMatch (.opt (⟨none⟩ : OptionR T)) ⟨some someF, some noneF, oh, eh⟩
      = .ok (noneF ()) ∧
    jsMatch (E := E) (.opt (Some 5))
      ⟨some (fun x => x * 2), some (fun _ => 0), none, none⟩ = .ok 10 ∧
    jsMatch (E := E) (.opt (None (T := Nat)))
      ⟨some (fun x => x * 2), some (fun _ => 0), none, none⟩ = .ok 0 ∧
    jsMatch (.res (Ok v : Result T E)) ⟨m.someH, m.noneH, some okF, some errF⟩
      = .ok (okF v) ∧
    jsMatch (.res (Err e : Result T E)) ⟨m.someH, m.noneH, some okF, some errF⟩
      = .ok (errF e) ∧
    jsMatch (.other : MatchInput T E) m = .error matchErrorValue ∧
    jsMatch (.opt ⟨some v⟩) ⟨none, some noneF, some okF, some errF⟩
      = .error matchErrorValue ∧
    jsMatch (.opt ⟨some v⟩) ⟨some someF, none, some okF, some errF⟩
      = .error matchErrorValue ∧
    jsMatch (.res (Ok v : Result T E)) ⟨some someF, some noneF, none, eh⟩
      = .error matchErrorValue ∧
    jsMatch (.res (Ok v : Result T E)) ⟨some someF, some noneF, some okF, none⟩
      = .error matchErrorValue :=
  ⟨rfl, rfl, rfl, rfl, rfl, rfl, rfl, rfl, rfl, rfl, rfl⟩

/-- C9: take returns a new Option carrying the receiver's prior slot
contents and leaves the receiver absent; in particular taking from an
absent Option returns an absent Option, taking from an Option holding v
returns an Option holding v, and the receiver is absent afterwards in both
cases.  In the embedding take is the only operation that returns an updated
receiver state, reflecting its role as the single in-place mutation. -/
theorem c9_take (T : Type) (o : OptionR T) (v : T) :
    (o.take).1 = ⟨o.slot⟩ ∧
    (o.take).2 = (⟨none⟩ : OptionR T) ∧
    ((⟨none⟩ : OptionR T).take).1.isNone = true ∧
    ((⟨none⟩ : OptionR T).take).2.isNone = true ∧
    ((⟨some v⟩ : OptionR T).take).1 = ⟨some v⟩ ∧
    ((⟨some v⟩ : OptionR T).take).2.isNone = true := by
  refine ⟨?_, rfl, rfl, rfl, rfl, rfl⟩
  rcases o with ⟨s⟩
  cases s <;> rfl

/-- C10: Option.map collapses presence to absence when the transform
produces the language's absence marker: if the receiver holds v and the
transform sends v to null or undefined, the mapped Option reports isNone,
because the result is rebuilt through the collapsing constructor. -/
theorem c10_map_collapse (T U : Type) (o : OptionR T) (v : T)
    (func : T → Nullable U) (hslot : o.slot = some v)
    (habs : func v = Nullable.nullV ∨ func v = Nullable.undefV) :
    (o.map func).isNone = true := by
  rcases o with ⟨s⟩
  simp only at hslot
  subst hslot
  rcases habs with h | h <;>
    simp [OptionR.map, OptionR.make, OptionR.isNone, h]

/-- C10 witness: the collapse theorem applied to the Option holding 1 and
the transform that constantly returns null. -/
theorem c10_map_collapse_witness :
    ((⟨some 1⟩ : OptionR Nat).slot = some 1 ∧
      (fun (_ : Nat) => (Nullable.nullV : Nullable Nat)) 1 = Nullable.nullV) ∧
    ((⟨some 1⟩ : OptionR Nat).map (fun _ => (Nullable.nullV : Nullable Nat))).isNone
      = true :=
  ⟨⟨rfl, rfl⟩,
    c10_map_collapse Nat Nat ⟨some 1⟩ 1 (fun _ => Nullable.nullV) rfl (Or.inl rfl)⟩

end Resultant
